import Mathlib

/-!
Verification of the credential-store / auth-gateway module of `src/app.py`
("SmartBill Connect").

The development embeds, in order:
* `hash_password` (SHA-256 of the UTF-8 encoding of the password, rendered
  as lowercase hex) — a faithful functional model of
  `hashlib.sha256(password.encode()).hexdigest()`, FIPS 180-4, over `Nat`
  with explicit `% 2 ^ 32` where 32-bit overflow matters;
* the S3-backed credential store (`get_users_from_s3`, `save_users_to_s3`)
  as explicit state passing over an `S3World` that records the remote
  object, a fault-injection schedule (one entry per S3 API call; `true`
  means that call raises a generic exception) and the operator notices
  emitted through `st.error`;
* the auth gateway `save_user` / `authenticate` on top of them.
-/

/-! ### SHA-256 over byte lists (bytes and 32-bit words are `Nat`) -/

/-- Right rotation of a 32-bit word (input assumed `< 2 ^ 32`). -/
def rotr (k x : Nat) : Nat := ((x >>> k) ||| (x <<< (32 - k))) % 2 ^ 32

/-- FIPS 180-4 `Ch(e,f,g)`. -/
def chFn (e f g : Nat) : Nat := (e &&& f) ^^^ ((2 ^ 32 - 1 - e) &&& g)

/-- FIPS 180-4 `Maj(a,b,c)`. -/
def majFn (a b c : Nat) : Nat := (a &&& b) ^^^ (a &&& c) ^^^ (b &&& c)

/-- FIPS 180-4 big Sigma-0. -/
def bsig0 (x : Nat) : Nat := rotr 2 x ^^^ rotr 13 x ^^^ rotr 22 x

/-- FIPS 180-4 big Sigma-1. -/
def bsig1 (x : Nat) : Nat := rotr 6 x ^^^ rotr 11 x ^^^ rotr 25 x

/-- FIPS 180-4 small sigma-0. -/
def ssig0 (x : Nat) : Nat := rotr 7 x ^^^ rotr 18 x ^^^ (x >>> 3)

/-- FIPS 180-4 small sigma-1. -/
def ssig1 (x : Nat) : Nat := rotr 17 x ^^^ rotr 19 x ^^^ (x >>> 10)

/-- The 64 SHA-256 round constants `K[0] = 0x428a2f98` through
`K[63] = 0xc67178f2` (FIPS 180-4 §4.2.2), written in decimal. -/
def K256 : List Nat :=
  [1116352408, 1899447441, 3049323471, 3921009573, 961987163, 1508970993,
   2453635748, 2870763221, 3624381080, 310598401, 607225278, 1426881987,
   1925078388, 2162078206, 2614888103, 3248222580, 3835390401, 4022224774,
   264347078, 604807628, 770255983, 1249150122, 1555081692, 1996064986,
   2554220882, 2821834349, 2952996808, 3210313671, 3336571891, 3584528711,
   113926993, 338241895, 666307205, 773529912, 1294757372, 1396182291,
   1695183700, 1986661051, 2177026350, 2456956037, 2730485921, 2820302411,
   3259730800, 3345764771, 3516065817, 3600352804, 4094571909, 275423344,
   430227734, 506948616, 659060556, 883997877, 958139571, 1322822218,
   1537002063, 1747873779, 1955562222, 2024104815, 2227730452, 2361852424,
   2428436474, 2756734187, 3204031479, 3329325298]

/-- The eight SHA-256 working variables / hash state. -/
structure Hash8 where
  a : Nat
  b : Nat
  c : Nat
  d : Nat
  e : Nat
  f : Nat
  g : Nat
  h : Nat
deriving Repr, DecidableEq

/-- The SHA-256 initial hash value `H[0] = 0x6a09e667` through
`H[7] = 0x5be0cd19` (FIPS 180-4 §5.3.3), written in decimal. -/
def initH256 : Hash8 :=
  ⟨1779033703, 3144134277, 1013904242, 2773480762,
   1359893119, 2600822924, 528734635, 1541459225⟩

/-- Split a list (whose length is a multiple of `n + 1`) into consecutive
chunks of size `n + 1`. -/
def toChunks (n : Nat) (l : List Nat) : List (List Nat) :=
  (List.range (l.length / (n + 1))).map fun i => (l.drop (i * (n + 1))).take (n + 1)

/-- Big-endian interpretation of a byte list as a number. -/
def bytesToWord (l : List Nat) : Nat := l.foldl (fun acc b => acc * 256 + b) 0

/-- The next message-schedule word from the words produced so far. -/
def nextW (ws : List Nat) : Nat :=
  let n := ws.length
  (ssig1 (ws.getD (n - 2) 0) + ws.getD (n - 7) 0 +
    ssig0 (ws.getD (n - 15) 0) + ws.getD (n - 16) 0) % 2 ^ 32

/-- Extend the 16-word message schedule by `k` further words. -/
def extendSchedule : Nat → List Nat → List Nat
  | 0, ws => ws
  | k + 1, ws => extendSchedule k (ws ++ [nextW ws])

/-- One SHA-256 round, consuming a (round constant, schedule word) pair. -/
def roundStep (st : Hash8) (kw : Nat × Nat) : Hash8 :=
  let temp1 := (st.h + bsig1 st.e + chFn st.e st.f st.g + kw.1 + kw.2) % 2 ^ 32
  let temp2 := (bsig0 st.a + majFn st.a st.b st.c) % 2 ^ 32
  ⟨(temp1 + temp2) % 2 ^ 32, st.a, st.b, st.c,
   (st.d + temp1) % 2 ^ 32, st.e, st.f, st.g⟩

/-- Process one 64-byte block. -/
def compressBlock (st : Hash8) (block : List Nat) : Hash8 :=
  let ws := extendSchedule 48 ((toChunks 3 block).map bytesToWord)
  let t := (K256.zip ws).foldl roundStep st
  ⟨(st.a + t.a) % 2 ^ 32, (st.b + t.b) % 2 ^ 32, (st.c + t.c) % 2 ^ 32,
   (st.d + t.d) % 2 ^ 32, (st.e + t.e) % 2 ^ 32, (st.f + t.f) % 2 ^ 32,
   (st.g + t.g) % 2 ^ 32, (st.h + t.h) % 2 ^ 32⟩

/-- The 8-byte big-endian rendering of the message bit length. -/
def lenBytes (n : Nat) : List Nat :=
  [n / 2 ^ 56 % 256, n / 2 ^ 48 % 256, n / 2 ^ 40 % 256, n / 2 ^ 32 % 256,
   n / 2 ^ 24 % 256, n / 2 ^ 16 % 256, n / 2 ^ 8 % 256, n % 256]

/-- SHA-256 padding: `0x80`, zeros to 56 mod 64, then the 64-bit bit length. -/
def padMsg (msg : List Nat) : List Nat :=
  msg ++ [0x80] ++ List.replicate ((120 - (msg.length + 1) % 64) % 64) 0 ++
    lenBytes (8 * msg.length)

/-- The four big-endian bytes of a 32-bit word. -/
def wordToBytes (w : Nat) : List Nat :=
  [w / 2 ^ 24 % 256, w / 2 ^ 16 % 256, w / 2 ^ 8 % 256, w % 256]

/-- Concatenated big-endian bytes of a word list. -/
def digestBytes (ws : List Nat) : List Nat := (ws.map wordToBytes).flatten

/-- The eight state words as a list, in order. -/
def hash8ToList (s : Hash8) : List Nat := [s.a, s.b, s.c, s.d, s.e, s.f, s.g, s.h]

/-- SHA-256 of a byte list: the 32 digest bytes. -/
def sha256Bytes (msg : List Nat) : List Nat :=
  digestBytes (hash8ToList ((toChunks 63 (padMsg msg)).foldl compressBlock initH256))

/-! ### Lowercase hex rendering and UTF-8 encoding -/

/-- The lowercase hex digit for `n < 16`. -/
def hexChar (n : Nat) : Char :=
  if n < 10 then Char.ofNat (48 + n) else Char.ofNat (87 + n)

/-- Two lowercase hex digits of a byte (`b < 256`). -/
def byteToHex (b : Nat) : List Char := [hexChar (b / 16), hexChar (b % 16)]

/-- Lowercase hex string of a byte list (Python `hexdigest` rendering). -/
def bytesToHex (bs : List Nat) : String := String.mk (bs.flatMap byteToHex)

/-- UTF-8 encoding of one Unicode scalar value (Python `str.encode`). -/
def utf8EncodeChar (c : Char) : List Nat :=
  let n := c.toNat
  if n < 0x80 then [n]
  else if n < 0x800 then
    [0xc0 ||| (n >>> 6), 0x80 ||| (n &&& 0x3f)]
  else if n < 0x10000 then
    [0xe0 ||| (n >>> 12), 0x80 ||| ((n >>> 6) &&& 0x3f), 0x80 ||| (n &&& 0x3f)]
  else
    [0xf0 ||| (n >>> 18), 0x80 ||| ((n >>> 12) &&& 0x3f),
     0x80 ||| ((n >>> 6) &&& 0x3f), 0x80 ||| (n &&& 0x3f)]

/-- UTF-8 encoding of a string as a byte list. -/
def utf8Encode (s : String) : List Nat := s.data.flatMap utf8EncodeChar

/-- `hash_password` from `src/app.py`:
`hashlib.sha256(password.encode()).hexdigest()`. -/
def hash_password (password : String) : String :=
  bytesToHex (sha256Bytes (utf8Encode password))

/-! ### The S3-backed credential store

The remote object `users/credentials.json` is modelled as
`Option UsersMap`: `none` when the object does not exist (so `get_object`
raises `NoSuchKey`), `some users` when it holds the JSON document for the
mapping `users`.  JSON serialization of a string-to-string mapping is the
identity on the mapping, so the document is kept in parsed form; Python
dicts preserve insertion order, so the mapping is an association list.

Each S3 API call (`get_object` / `put_object`) consumes one entry of a
fault-injection schedule `faults`; `true` means that call raises a generic
exception (for `get_object`, one other than `NoSuchKey` — the two are
mutually exclusive events), `false` means the call behaves normally.  An
exhausted schedule injects no faults.  `st.error` notices are accumulated
in `errors`. -/

/-- The parsed credential document: username-to-hash pairs in insertion
order (Python dict semantics). -/
abbrev UsersMap := List (String × String)

/-- The operator-facing notices the module can emit via `st.error`. -/
inductive Notice where
  /-- `st.error(f"Error accessing S3: {str(e)}")` in `get_users_from_s3`. -/
  | s3AccessError
  /-- `st.error(f"Error saving to S3: {str(e)}")` in `save_users_to_s3`. -/
  | s3SaveError
deriving Repr, DecidableEq

/-- The world state threaded through the module: the remote object, the
fault-injection schedule, and the notices emitted so far. -/
structure S3World where
  store : Option UsersMap
  faults : List Bool
  errors : List Notice
deriving DecidableEq

/-- Python `username in users` on the parsed document. -/
def dictContains (d : UsersMap) (k : String) : Bool :=
  (List.lookup k d).isSome

/-- Python `users[username]`: only evaluated under a `dictContains` guard
(in Python a missing key would raise `KeyError`); the default is never
reached in the source's uses. -/
def dictGet (d : UsersMap) (k : String) : String :=
  (List.lookup k d).getD ""

/-- Python `users[username] = v`: update in place when the key exists,
append otherwise (insertion-ordered dict assignment). -/
def dictSet (d : UsersMap) (k v : String) : UsersMap :=
  if dictContains d k then
    d.map fun p => if p.1 = k then (k, v) else p
  else d ++ [(k, v)]

/-- Pop the next fault-schedule entry (no fault when exhausted). -/
def popFault (w : S3World) : Bool × S3World :=
  (w.faults.headD false, ⟨w.store, w.faults.tail, w.errors⟩)

/-- `get_users_from_s3` from `src/app.py`: fetch and parse the credential
document; `NoSuchKey` (absent object) yields `{}`; any other exception is
reported via `st.error` and `{}` is returned. -/
def get_users_from_s3 (w : S3World) : UsersMap × S3World :=
  let fw := popFault w
  if fw.1 then
    ([], ⟨fw.2.store, fw.2.faults, fw.2.errors ++ [Notice.s3AccessError]⟩)
  else
    match fw.2.store with
    | some users_data => (users_data, fw.2)
    | none => ([], fw.2)

/-- `save_users_to_s3` from `src/app.py`: serialize the mapping and
overwrite the remote object wholesale, returning `true`; any exception is
reported via `st.error` and `false` is returned (nothing written). -/
def save_users_to_s3 (users_data : UsersMap) (w : S3World) : Bool × S3World :=
  let fw := popFault w
  if fw.1 then
    (false, ⟨fw.2.store, fw.2.faults, fw.2.errors ++ [Notice.s3SaveError]⟩)
  else
    (true, ⟨some users_data, fw.2.faults, fw.2.errors⟩)

/-- `save_user` from `src/app.py` (the spec's `register`): load the
mapping; if the username is absent, insert its password hash and return
the result of the save; otherwise return `false`. -/
def save_user (username password : String) (w : S3World) : Bool × S3World :=
  let r := get_users_from_s3 w
  if !(dictContains r.1 username) then
    save_users_to_s3 (dictSet r.1 username (hash_password password)) r.2
  else
    (false, r.2)

/-- `authenticate` from `src/app.py`: load the mapping, hash the supplied
password, and test `username in users and users[username] == hash`. -/
def authenticate (username password : String) (w : S3World) : Bool × S3World :=
  let r := get_users_from_s3 w
  let hashed_password := hash_password password
  (dictContains r.1 username && (dictGet r.1 username == hashed_password), r.2)

/-- Whether the stored credential document has an entry for `u` (an absent
document contains no one). -/
def stateContains (w : S3World) (u : String) : Bool :=
  dictContains (w.store.getD []) u

/-! ### Structural facts about the hash -/

/-- The ten decimal digits. -/
def decDigits : List Char := ['0', '1', '2', '3', '4', '5', '6', '7', '8', '9']

/-- The six lowercase letters used by hex. -/
def hexLetters : List Char := ['a', 'b', 'c', 'd', 'e', 'f']

/-- The sixteen lowercase hex digits. -/
def hexDigits : List Char := decDigits ++ hexLetters

lemma hexChar_mem_hexDigits : ∀ n < 16, hexChar n ∈ hexDigits := by decide

lemma digestBytes_length (ws : List Nat) : (digestBytes ws).length = 4 * ws.length := by
  induction ws with
  | nil => rfl
  | cons w ws ih =>
    simp only [digestBytes, List.map_cons, List.flatten_cons, List.length_append,
      List.length_cons] at ih ⊢
    simp [wordToBytes, ih]
    omega

lemma mem_digestBytes_lt {b : Nat} {ws : List Nat} (hb : b ∈ digestBytes ws) : b < 256 := by
  induction ws with
  | nil => simp [digestBytes] at hb
  | cons w ws ih =>
    simp only [digestBytes, List.map_cons, List.flatten_cons, List.mem_append] at hb
    rcases hb with hb | hb
    · simp only [wordToBytes, List.mem_cons, List.not_mem_nil, or_false] at hb
      rcases hb with h | h | h | h <;> omega
    · exact ih hb

lemma flatMap_byteToHex_length (bs : List Nat) :
    (bs.flatMap byteToHex).length = 2 * bs.length := by
  induction bs with
  | nil => rfl
  | cons b bs ih =>
    simp only [List.flatMap_cons, List.length_append, List.length_cons, ih, byteToHex]
    simp
    omega

lemma mem_flatMap_byteToHex {c : Char} {bs : List Nat} (hbs : ∀ b ∈ bs, b < 256)
    (hc : c ∈ bs.flatMap byteToHex) : c ∈ hexDigits := by
  simp only [List.mem_flatMap, byteToHex, List.mem_cons, List.not_mem_nil, or_false] at hc
  obtain ⟨b, hb, hcb⟩ := hc
  have h256 := hbs b hb
  rcases hcb with h | h <;> subst h <;> exact hexChar_mem_hexDigits _ (by omega)

lemma sha256Bytes_length (m : List Nat) : (sha256Bytes m).length = 32 := by
  show (digestBytes (hash8ToList _)).length = 32
  rw [digestBytes_length]
  rfl

lemma sha256Bytes_lt (m : List Nat) : ∀ b ∈ sha256Bytes m, b < 256 :=
  fun _ hb => mem_digestBytes_lt hb

lemma hash_password_data (p : String) :
    (hash_password p).data = (sha256Bytes (utf8Encode p)).flatMap byteToHex := rfl

lemma hash_password_length (p : String) : (hash_password p).length = 64 := by
  show ((sha256Bytes (utf8Encode p)).flatMap byteToHex).length = 64
  rw [flatMap_byteToHex_length, sha256Bytes_length]

lemma hash_password_chars {p : String} {c : Char} (hc : c ∈ (hash_password p).data) :
    c ∈ hexDigits :=
  mem_flatMap_byteToHex (sha256Bytes_lt _) (hash_password_data p ▸ hc)

/-! ### Evaluation lemmas for the store operations -/

lemma dictContains_false_lookup {d : UsersMap} {u : String}
    (h : dictContains d u = false) : List.lookup u d = none := by
  cases hl : List.lookup u d with
  | none => rfl
  | some v => simp [dictContains, hl] at h

lemma lookup_append_self (d : UsersMap) (u v : String)
    (h : List.lookup u d = none) : List.lookup u (d ++ [(u, v)]) = some v := by
  rw [List.lookup_append, h]
  simp [List.lookup]

/-- A fault-free `save_user` of a username absent from the store: the
document becomes the loaded mapping plus the new entry, and `true` is
returned. -/
lemma save_user_new (u p : String) (store : Option UsersMap) (errors : List Notice)
    (hu : dictContains (store.getD []) u = false) :
    save_user u p ⟨store, [], errors⟩ =
      (true, ⟨some ((store.getD []) ++ [(u, hash_password p)]), [], errors⟩) := by
  cases store <;>
    simp_all [save_user, get_users_from_s3, popFault, save_users_to_s3, dictSet]

/-- A fault-free `authenticate` against a document whose entry for `u` is
`some v`: the result is the hash comparison. -/
lemma authenticate_lookup (u p : String) (users : UsersMap) (errors : List Notice) :
    (authenticate u p ⟨some users, [], errors⟩).1 =
      (match List.lookup u users with
       | some v => v == hash_password p
       | none => false) := by
  simp only [authenticate, get_users_from_s3, popFault, List.headD_nil, List.tail_nil,
    Bool.false_eq_true, if_neg, dictContains, dictGet]
  cases hl : List.lookup u users <;> simp [hl]

/-- Claim C6: `hash_password` is deterministic — two applications to the
same input yield identical output — and its output is always a
64-character string of lowercase hexadecimal digits. -/
theorem hash_password_deterministic_hex64 (p : String) :
    hash_password p = hash_password p ∧
    (hash_password p).length = 64 ∧
    ∀ c ∈ (hash_password p).data, c ∈ hexDigits :=
  ⟨rfl, hash_password_length p, fun _ hc => hash_password_chars hc⟩

set_option maxRecDepth 40000 in
/-- Witness for C6 at `p = "abc"` (the digest starts with `'b'`). -/
theorem hash_password_deterministic_hex64_witness :
    hash_password "abc" = hash_password "abc" ∧
    (hash_password "abc").length = 64 ∧ 'b' ∈ hexDigits :=
  ⟨(hash_password_deterministic_hex64 "abc").1,
   (hash_password_deterministic_hex64 "abc").2.1,
   (hash_password_deterministic_hex64 "abc").2.2 'b' (by decide)⟩

/-- Claim C1: registering a fresh username and then authenticating with
the same password succeeds (fault-free storage). -/
theorem register_then_authenticate (u p : String) (w : S3World)
    (hf : w.faults = []) (hu : stateContains w u = false) :
    (save_user u p w).1 = true ∧
    (authenticate u p (save_user u p w).2).1 = true := by
  obtain ⟨store, faults, errors⟩ := w
  cases hf
  have hu' : dictContains (store.getD []) u = false := hu
  rw [save_user_new u p store errors hu']
  refine ⟨rfl, ?_⟩
  rw [authenticate_lookup,
    lookup_append_self _ _ _ (dictContains_false_lookup hu')]
  simp

/-- Witness for C1: `register("alice","pw1")` on an absent document, then
`authenticate("alice","pw1")`. -/
theorem register_then_authenticate_witness :
    (save_user "alice" "pw1" ⟨none, [], []⟩).1 = true ∧
    (authenticate "alice" "pw1" (save_user "alice" "pw1" ⟨none, [], []⟩).2).1 = true :=
  register_then_authenticate "alice" "pw1" ⟨none, [], []⟩ rfl rfl

/-- Claim C3: authenticating a username with no entry in the stored
credential document returns `false`, whatever the password and whatever
the storage faults. -/
theorem unknown_user_rejected (u p : String) (w : S3World)
    (hu : stateContains w u = false) :
    (authenticate u p w).1 = false := by
  obtain ⟨store, faults, errors⟩ := w
  simp only [authenticate, get_users_from_s3, popFault]
  cases hfb : faults.headD false with
  | true => simp [dictContains]
  | false =>
    cases store with
    | none => simp [dictContains]
    | some users =>
      have hu' : dictContains users u = false := hu
      simp [hu']

/-- Witness for C3: `authenticate("bob", "anything")` against a store that
only knows `alice`. -/
theorem unknown_user_rejected_witness :
    stateContains ⟨some [("alice", "h")], [], []⟩ "bob" = false ∧
    (authenticate "bob" "anything" ⟨some [("alice", "h")], [], []⟩).1 = false :=
  ⟨rfl, unknown_user_rejected "bob" "anything" ⟨some [("alice", "h")], [], []⟩ rfl⟩

/-- Claim C4: registering a username that already has an entry returns
`false`, leaves the stored document unchanged, and leaves the result of
every subsequent `authenticate` unchanged — the original password still
works (fault-free storage). -/
theorem duplicate_registration_rejected (u p : String) (w : S3World)
    (hf : w.faults = []) (hu : stateContains w u = true) :
    (save_user u p w).1 = false ∧
    (save_user u p w).2.store = w.store ∧
    ∀ p0, (authenticate u p0 (save_user u p w).2).1 = (authenticate u p0 w).1 := by
  obtain ⟨store, faults, errors⟩ := w
  cases hf
  cases store with
  | none => simp [stateContains, dictContains] at hu
  | some users =>
    have hu' : dictContains users u = true := hu
    have hs : save_user u p ⟨some users, [], errors⟩ =
        (false, ⟨some users, [], errors⟩) := by
      simp [save_user, get_users_from_s3, popFault, hu']
    rw [hs]
    exact ⟨rfl, rfl, fun p0 => rfl⟩

/-- Witness for C4: a second registration of `alice` with `pw3` is
rejected and `pw1` still authenticates. -/
theorem duplicate_registration_rejected_witness :
    (save_user "alice" "pw3" ⟨some [("alice", hash_password "pw1")], [], []⟩).1 = false ∧
    (save_user "alice" "pw3" ⟨some [("alice", hash_password "pw1")], [], []⟩).2.store =
      some [("alice", hash_password "pw1")] ∧
    (authenticate "alice" "pw1"
        (save_user "alice" "pw3" ⟨some [("alice", hash_password "pw1")], [], []⟩).2).1 =
      (authenticate "alice" "pw1" ⟨some [("alice", hash_password "pw1")], [], []⟩).1 :=
  have h := duplicate_registration_rejected "alice" "pw3"
    ⟨some [("alice", hash_password "pw1")], [], []⟩ rfl rfl
  ⟨h.1, h.2.1, h.2.2 "pw1"⟩

/-- One-step evaluation of `get_users_from_s3`. -/
lemma get_users_eval (store : Option UsersMap) (faults : List Bool)
    (errors : List Notice) :
    get_users_from_s3 ⟨store, faults, errors⟩ =
      if faults.headD false then
        ([], ⟨store, faults.tail, errors ++ [Notice.s3AccessError]⟩)
      else (store.getD [], ⟨store, faults.tail, errors⟩) := by
  cases store <;> rfl

/-- One-step evaluation of `save_users_to_s3`. -/
lemma save_users_eval (ud : UsersMap) (store : Option UsersMap)
    (faults : List Bool) (errors : List Notice) :
    save_users_to_s3 ud ⟨store, faults, errors⟩ =
      if faults.headD false then
        (false, ⟨store, faults.tail, errors ++ [Notice.s3SaveError]⟩)
      else (true, ⟨some ud, faults.tail, errors⟩) := rfl

/-- A fault-free load returns the stored mapping (or `{}` when the
document is absent) and touches neither the store nor the notices. -/
lemma get_users_noFault (store : Option UsersMap) (faults : List Bool)
    (errors : List Notice) (h : faults.headD false = false) :
    get_users_from_s3 ⟨store, faults, errors⟩ =
      (store.getD [], ⟨store, faults.tail, errors⟩) := by
  rw [get_users_eval, h]
  simp

/-- Claim C5: registering a username absent from the loaded mapping hands
to `save` exactly the loaded mapping extended with the one entry
`u ↦ SHA-256 hex digest of p` (all other entries untouched, the stored
value being the digest, not the plain-text password), and returns exactly
the boolean result of the save; when the save fails nothing is written. -/
theorem register_inserts_hash_only (u p : String) (w : S3World)
    (hget : w.faults.headD false = false) (hu : stateContains w u = false) :
    save_user u p w =
      save_users_to_s3 ((w.store.getD []) ++ [(u, hash_password p)])
        ⟨w.store, w.faults.tail, w.errors⟩ ∧
    dictSet (w.store.getD []) u (hash_password p) =
      (w.store.getD []) ++ [(u, hash_password p)] ∧
    ((save_user u p w).1 = true →
      (save_user u p w).2.store = some ((w.store.getD []) ++ [(u, hash_password p)])) ∧
    ((save_user u p w).1 = false → (save_user u p w).2.store = w.store) := by
  obtain ⟨store, faults, errors⟩ := w
  have hu' : dictContains (store.getD []) u = false := hu
  have hset : dictSet (store.getD []) u (hash_password p) =
      (store.getD []) ++ [(u, hash_password p)] := by
    simp [dictSet, hu']
  have hs : save_user u p ⟨store, faults, errors⟩ =
      save_users_to_s3 ((store.getD []) ++ [(u, hash_password p)])
        ⟨store, faults.tail, errors⟩ := by
    simp only [save_user, get_users_noFault store faults errors hget, hu', hset,
      Bool.not_false, if_pos]
  refine ⟨hs, hset, ?_, ?_⟩ <;> rw [hs, save_users_eval] <;>
    cases hput : faults.tail.headD false <;> simp

/-- Witness for C5: registering `bob` against a document holding only
`alice`. -/
theorem register_inserts_hash_only_witness :
    save_user "bob" "pw9" ⟨some [("alice", "h0")], [], []⟩ =
      save_users_to_s3 [("alice", "h0"), ("bob", hash_password "pw9")]
        ⟨some [("alice", "h0")], [], []⟩ ∧
    dictSet [("alice", "h0")] "bob" (hash_password "pw9") =
      [("alice", "h0"), ("bob", hash_password "pw9")] ∧
    ((save_user "bob" "pw9" ⟨some [("alice", "h0")], [], []⟩).1 = true →
      (save_user "bob" "pw9" ⟨some [("alice", "h0")], [], []⟩).2.store =
        some [("alice", "h0"), ("bob", hash_password "pw9")]) ∧
    ((save_user "bob" "pw9" ⟨some [("alice", "h0")], [], []⟩).1 = false →
      (save_user "bob" "pw9" ⟨some [("alice", "h0")], [], []⟩).2.store =
        some [("alice", "h0")]) :=
  have h := register_inserts_hash_only "bob" "pw9" ⟨some [("alice", "h0")], [], []⟩ rfl rfl
  ⟨h.1, h.2.1, h.2.2.1, h.2.2.2⟩

/-- Claim C7: when the credential document does not exist, `load` returns
the empty mapping (not an error), and a first fault-free registration
succeeds and creates the document with the single new entry. -/
theorem empty_store_bootstrap (u p : String) (w : S3World)
    (hs : w.store = none) (hf : w.faults = []) :
    (get_users_from_s3 w).1 = [] ∧
    (save_user u p w).1 = true ∧
    (save_user u p w).2.store = some [(u, hash_password p)] := by
  obtain ⟨store, faults, errors⟩ := w
  cases hs
  cases hf
  rw [save_user_new u p none errors rfl]
  exact ⟨rfl, rfl, rfl⟩

/-- Witness for C7: first registration against an absent document. -/
theorem empty_store_bootstrap_witness :
    (get_users_from_s3 ⟨none, [], []⟩).1 = [] ∧
    (save_user "alice" "pw1" ⟨none, [], []⟩).1 = true ∧
    (save_user "alice" "pw1" ⟨none, [], []⟩).2.store =
      some [("alice", hash_password "pw1")] :=
  empty_store_bootstrap "alice" "pw1" ⟨none, [], []⟩ rfl rfl

/-- Claim C8: a storage failure other than not-found never escapes as an
exception: `load` returns the empty mapping and `save` returns `false`,
each leaving the store untouched and emitting exactly one operator
notice — so the caller sees the same values as "no users yet" /
"operation did not succeed". -/
theorem storage_failure_swallowed (ud : UsersMap) (w : S3World)
    (hf : w.faults.headD false = true) :
    (get_users_from_s3 w).1 = [] ∧
    (get_users_from_s3 w).2.store = w.store ∧
    (get_users_from_s3 w).2.errors = w.errors ++ [Notice.s3AccessError] ∧
    (save_users_to_s3 ud w).1 = false ∧
    (save_users_to_s3 ud w).2.store = w.store ∧
    (save_users_to_s3 ud w).2.errors = w.errors ++ [Notice.s3SaveError] := by
  obtain ⟨store, faults, errors⟩ := w
  simp_all [get_users_from_s3, save_users_to_s3, popFault]

/-- Witness for C8: a faulting S3 call against a nonempty document. -/
theorem storage_failure_swallowed_witness :
    (get_users_from_s3 ⟨some [("a", "b")], [true], []⟩).1 = [] ∧
    (get_users_from_s3 ⟨some [("a", "b")], [true], []⟩).2.store = some [("a", "b")] ∧
    (get_users_from_s3 ⟨some [("a", "b")], [true], []⟩).2.errors =
      [] ++ [Notice.s3AccessError] ∧
    (save_users_to_s3 [("u", "v")] ⟨some [("a", "b")], [true], []⟩).1 = false ∧
    (save_users_to_s3 [("u", "v")] ⟨some [("a", "b")], [true], []⟩).2.store =
      some [("a", "b")] ∧
    (save_users_to_s3 [("u", "v")] ⟨some [("a", "b")], [true], []⟩).2.errors =
      [] ++ [Notice.s3SaveError] :=
  storage_failure_swallowed [("u", "v")] ⟨some [("a", "b")], [true], []⟩ rfl

/-- Claim C9: a fault-free `load` leaves the store untouched and its
result is a function of the store contents, so two consecutive loads with
no intervening save return equal mappings. -/
theorem load_idempotent (w : S3World) (hf : w.faults = []) :
    (get_users_from_s3 w).2.store = w.store ∧
    (get_users_from_s3 ((get_users_from_s3 w).2)).1 = (get_users_from_s3 w).1 := by
  obtain ⟨store, faults, errors⟩ := w
  cases hf
  cases store <;> simp [get_users_from_s3, popFault]

/-- Witness for C9: double load of a one-user document. -/
theorem load_idempotent_witness :
    (get_users_from_s3 ⟨some [("alice", "h1")], [], []⟩).2.store = some [("alice", "h1")] ∧
    (get_users_from_s3 ((get_users_from_s3 ⟨some [("alice", "h1")], [], []⟩).2)).1 =
      (get_users_from_s3 ⟨some [("alice", "h1")], [], []⟩).1 :=
  load_idempotent ⟨some [("alice", "h1")], [], []⟩ rfl

/-- Claim C10: `authenticate` never writes: whatever the username, the
password and the storage behaviour, the stored document after the call is
the one before it (the operation is a load plus an in-memory comparison). -/
theorem authenticate_preserves_store (u p : String) (w : S3World) :
    (authenticate u p w).2.store = w.store := by
  obtain ⟨store, faults, errors⟩ := w
  show (get_users_from_s3 ⟨store, faults, errors⟩).2.store = store
  rw [get_users_eval]
  cases hfb : faults.headD false <;> simp
